import Mathlib

/-!
Verification of the fueltrack repository (src/main.py): a shallow embedding of the
chained recalculation engine (the PUT /api/logs/entry/{log_id} handler
update_log_entry) together with the parts of the data model and of the other
endpoints that the verified properties mention.

Modelling conventions:
* SQL REAL columns are modelled as rationals; DATE as an integer day number.
* A table is a list of rows in insertion order; SELECT ... ORDER BY is an
  explicit sort or a fold computing the extremal row; fetchone on a query whose
  key is unique is a first-match scan.
* The psycopg2 connection with commit/rollback is modelled by running the whole
  handler body as a pure function returning Except: on error the caller keeps
  the pre-call database (rollback), on success the returned database is the
  committed one.
* FastAPI HTTPException is modelled by the HttpErr structure; the except-branch
  of update_log_entry (src/main.py lines 237-239) wraps every error of the body
  into status 500 with detail "Database error: " ++ str(error), where
  str(HTTPException) renders as "<status>: <detail>".
-/

namespace FuelTrack

/-- A row of the cars table (src/main.py, init_db lines 36-41). -/
structure Car where
  id : Nat
  user_id : String
  name : String
  plate : Option String
  current_mileage : ℚ
  current_fuel : ℚ
  consumption_driving : ℚ
  consumption_idle : ℚ
  is_active : Bool
  deriving DecidableEq

/-- A row of the fuel_logs table (src/main.py, init_db lines 42-50), together
with the start_fuel column which the DDL in init_db omits but which
update_log_entry reads (line 165, line 183) and writes (line 220) and the
LogCreate model inserts; the deployed table therefore carries it. -/
structure FuelLog where
  id : Nat
  car_id : Nat
  date : Int
  start_mileage : ℚ
  end_mileage : ℚ
  trip_distance : ℚ
  refueled : ℚ
  idle_hours : ℚ
  fuel_consumed_driving : ℚ
  fuel_consumed_idle : ℚ
  fuel_consumed_total : ℚ
  fuel_after_trip : ℚ
  final_fuel_level : ℚ
  start_fuel : ℚ
  deriving DecidableEq

/-- The two tables of the database. -/
structure DB where
  cars : List Car
  fuel_logs : List FuelLog
  deriving DecidableEq

/-- Request body of PUT /api/logs/entry/{log_id} (pydantic model LogUpdate,
src/main.py lines 76-81). -/
structure LogUpdate where
  user_id : String
  end_mileage : ℚ
  refueled : ℚ
  idle_hours : ℚ
  date : Int
  deriving DecidableEq

/-- An HTTPException: status code and detail string. -/
structure HttpErr where
  status : Nat
  detail : String
  deriving DecidableEq

/-- Python str() of an HTTPException, as interpolated by the handler's
except-branch: "<status_code>: <detail>". -/
def HttpErr.render (e : HttpErr) : String :=
  toString e.status ++ ": " ++ e.detail

/-- fetchone scan for a fuel_logs row by primary key. -/
def findLogById : List FuelLog → Nat → Option FuelLog
  | [], _ => none
  | l :: ls, i => if l.id = i then some l else findLogById ls i

/-- fetchone scan for a cars row by primary key and owning user. -/
def findCar : List Car → Nat → String → Option Car
  | [], _, _ => none
  | c :: cs, i, uid => if c.id = i ∧ c.user_id = uid then some c else findCar cs i uid

/-- Lines 131-136: SELECT l.*, c.consumption_driving, c.consumption_idle FROM
fuel_logs l JOIN cars c ON l.car_id = c.id WHERE l.id = %s AND c.user_id = %s,
fetchone.  Ids are SERIAL primary keys, so the join yields at most one row:
the target log entry paired with its owning car (whose row carries the
consumption rates selected by the query). -/
def resolveTarget (db : DB) (lid : Nat) (uid : String) : Option (FuelLog × Car) :=
  match findLogById db.fuel_logs lid with
  | none => none
  | some l =>
    match findCar db.cars l.car_id uid with
    | none => none
    | some c => some (l, c)

/-- Accumulator step realising ORDER BY id DESC LIMIT 1 over a scan: keep the
row with the larger id. -/
def pickMaxId (acc : Option FuelLog) (x : FuelLog) : Option FuelLog :=
  match acc with
  | none => some x
  | some y => if y.id < x.id then some x else some y

/-- Lines 143 and 159: SELECT ... FROM fuel_logs WHERE car_id = %s AND id < %s
ORDER BY id DESC LIMIT 1. -/
def prevByIdQuery (db : DB) (cid lid : Nat) : Option FuelLog :=
  (db.fuel_logs.filter (fun l => decide (l.car_id = cid ∧ l.id < lid))).foldl pickMaxId none

/-- Row x comes strictly after row y in (date, id) order. -/
def laterDateId (y x : FuelLog) : Prop :=
  y.date < x.date ∨ (y.date = x.date ∧ y.id < x.id)

instance (y x : FuelLog) : Decidable (laterDateId y x) := by
  unfold laterDateId; infer_instance

/-- Accumulator step realising ORDER BY date DESC, id DESC LIMIT 1. -/
def pickMaxDateId (acc : Option FuelLog) (x : FuelLog) : Option FuelLog :=
  match acc with
  | none => some x
  | some y => if laterDateId y x then some x else some y

/-- Lines 169-173: SELECT ... FROM fuel_logs WHERE car_id = %s AND date <= %s
AND id != %s ORDER BY date DESC, id DESC LIMIT 1. -/
def prevByDateQuery (db : DB) (cid : Nat) (d : Int) (lid : Nat) : Option FuelLog :=
  (db.fuel_logs.filter
    (fun l => decide (l.car_id = cid ∧ l.date ≤ d ∧ l.id ≠ lid))).foldl pickMaxDateId none

/-- Anchor resolution of update_log_entry, lines 142-183, with every live
branch.  Note line 147 assigns the predecessor's final_fuel_level (a fuel
quantity) to current_start_mileage.  The reads at lines 150-151, 156-157 and
165-166 bind car_initial_state, first_log and base_data but never use them, so
they are omitted; the query at line 159 repeats the query of line 143
verbatim, hence the middle branch repeats prevByIdQuery. -/
def computeAnchor (db : DB) (t : FuelLog) (lid : Nat) : ℚ × ℚ :=
  match prevByIdQuery db t.car_id lid with
  | some p => (p.final_fuel_level, p.final_fuel_level)
  | none =>
    match prevByIdQuery db t.car_id lid with
    | some p => (p.end_mileage, p.final_fuel_level)
    | none =>
      match prevByDateQuery db t.car_id t.date lid with
      | some p => (p.end_mileage, p.final_fuel_level)
      | none => (t.start_mileage, t.start_fuel)

/-- Order used by the suffix query: ascending id. -/
def idLe (a b : FuelLog) : Prop := a.id ≤ b.id

instance : DecidableRel idLe := fun a b => (inferInstance : Decidable (a.id ≤ b.id))

instance : IsTotal FuelLog idLe := ⟨fun a b => Nat.le_total a.id b.id⟩

instance : IsTrans FuelLog idLe := ⟨fun _ _ _ => Nat.le_trans⟩

/-- Lines 187-188: SELECT * FROM fuel_logs WHERE car_id = %s AND id >= %s
ORDER BY id ASC: the rows the handler recomputes. -/
def codeSuffix (db : DB) (cid lid : Nat) : List FuelLog :=
  List.insertionSort idLe
    (db.fuel_logs.filter (fun l => decide (l.car_id = cid ∧ lid ≤ l.id)))

/-- Line 196-200: for the first element of the suffix, substitute the edited
field values from the request body before computing. -/
def substFirst (u : LogUpdate) (l : FuelLog) : FuelLog :=
  { l with end_mileage := u.end_mileage, refueled := u.refueled,
           idle_hours := u.idle_hours, date := u.date }

/-- Lines 203-213 without the validation: overwrite start_mileage/start_fuel
with the running anchor and recompute every derived column. -/
def computeDerived (cd ci lm lf : ℚ) (l : FuelLog) : FuelLog :=
  let td := l.end_mileage - lm
  let fcd := td / 100 * cd
  let fci := l.idle_hours * ci
  let fct := fcd + fci
  let fat := lf - fct
  let ffl := fat + l.refueled
  { l with start_mileage := lm, start_fuel := lf, trip_distance := td,
           fuel_consumed_driving := fcd, fuel_consumed_idle := fci,
           fuel_consumed_total := fct, fuel_after_trip := fat,
           final_fuel_level := ffl }

/-- The recalculation loop, lines 190-230: walk the suffix carrying the running
anchor (last_mileage, last_fuel); substitute the request body into the first
element; recompute each element's derived columns; abort with the line 207
message when a recomputed trip_distance is negative.  Returns the recomputed
rows together with the final running anchor. -/
def replay (cd ci : ℚ) (u : LogUpdate) :
    Bool → ℚ → ℚ → List FuelLog → Except String (List FuelLog × ℚ × ℚ)
  | _, lm, lf, [] => .ok ([], lm, lf)
  | first, lm, lf, l :: rest =>
    let l1 := computeDerived cd ci lm lf (if first then substFirst u l else l)
    if l1.trip_distance < 0 then
      .error ("Ошибка в данных: пробег в записи от " ++ toString l1.date ++
        " стал отрицательным.")
    else
      match replay cd ci u false l1.end_mileage l1.final_fuel_level rest with
      | .error e => .error e
      | .ok (ls, m, f) => .ok (l1 :: ls, m, f)

/-- Lines 216-226: the per-row UPDATE fuel_logs ... WHERE id=%s statements,
applied for each recomputed row. -/
def applyLogUpdates (table news : List FuelLog) : List FuelLog :=
  news.foldl (fun t n => t.map (fun r => if r.id = n.id then n else r)) table

/-- Line 233: UPDATE cars SET current_mileage = %s, current_fuel = %s WHERE id = %s. -/
def applyCarUpdate (cars : List Car) (cid : Nat) (m f : ℚ) : List Car :=
  cars.map (fun c =>
    if c.id = cid then { c with current_mileage := m, current_fuel := f } else c)

/-- Body of update_log_entry inside the try-block (lines 129-235): resolve the
target (404 when absent or owned by another user), compute the anchor, load the
suffix, replay it (400 with the line 207 message on a negative recomputed
distance), then write back every recomputed row and the car's terminal state.
A returned error means the transaction was not committed. -/
def update_log_entry_body (db : DB) (lid : Nat) (u : LogUpdate) : Except HttpErr DB :=
  match resolveTarget db lid u.user_id with
  | none => .error ⟨404, "Log entry not found"⟩
  | some (t, car) =>
    match replay car.consumption_driving car.consumption_idle u true
        (computeAnchor db t lid).1 (computeAnchor db t lid).2
        (codeSuffix db t.car_id lid) with
    | .error msg => .error ⟨400, msg⟩
    | .ok (ls, m, f) =>
      .ok { cars := applyCarUpdate db.cars t.car_id m f,
            fuel_logs := applyLogUpdates db.fuel_logs ls }

/-- The whole handler (lines 126-243): on success the body's writes are
committed and the constant success message returned; on any exception from the
body the except-branch (lines 237-239) rolls the transaction back, so the
database is unchanged, and re-raises status 500 with detail
"Database error: " ++ str(error). -/
def update_log_entry (db : DB) (lid : Nat) (u : LogUpdate) : DB × Except HttpErr String :=
  match update_log_entry_body db lid u with
  | .ok db2 => (db2, .ok "Logs updated successfully")
  | .error e => (db, .error ⟨500, "Database error: " ++ HttpErr.render e⟩)

/-- Order used by get_initial_data's SELECT: ascending car id. -/
def carIdLe (a b : Car) : Prop := a.id ≤ b.id

instance : DecidableRel carIdLe := fun a b => (inferInstance : Decidable (a.id ≤ b.id))

instance : IsTotal Car carIdLe := ⟨fun a b => Nat.le_total a.id b.id⟩

instance : IsTrans Car carIdLe := ⟨fun _ _ _ => Nat.le_trans⟩

/-- first active car of the fetched list (line 99: next(car for car in cars if
car['is_active'])). -/
def firstActive : List Car → Option Car
  | [] => none
  | c :: cs => if c.is_active then some c else firstActive cs

/-- GET /api/init/{user_id} (lines 93-106): fetch the user's cars ordered by
id; pick the first active one; when none is active and the list is nonempty,
UPDATE the first fetched car to is_active = true and use its id.  Returns the
updated database, the fetched car list and active_car_id.  (Car ids are SERIAL
and start at 1, so the Python falsiness test "not active_car_id" coincides
with the None test modelled here.) -/
def get_initial_data (db : DB) (uid : String) : DB × List Car × Option Nat :=
  let cars := List.insertionSort carIdLe (db.cars.filter (fun c => decide (c.user_id = uid)))
  match firstActive cars with
  | some c => (db, cars, some c.id)
  | none =>
    match cars with
    | [] => (db, cars, none)
    | c0 :: _ =>
      ({ db with cars := db.cars.map (fun x =>
          if x.id = c0.id ∧ x.user_id = uid then { x with is_active := true } else x) },
       cars, some c0.id)

/-- Modelled from the spec: the vehicle-creation endpoint is among the
endpoints elided from src/main.py (line 245, "остальные эндпоинты").  Spec
section 3 says a Vehicle is "Created on user request"; the DDL of init_db
(src/main.py lines 36-41) supplies the column defaults current_mileage 0,
current_fuel 0, consumption_driving 8.0, consumption_idle 1.0 and
is_active DEFAULT true, so a plain INSERT of a new car for a user takes
is_active = true from the DDL. -/
def create_car (db : DB) (uid nm : String) (plate : Option String) (newId : Nat) : DB :=
  { db with cars := db.cars ++
      [{ id := newId, user_id := uid, name := nm, plate := plate,
         current_mileage := 0, current_fuel := 0,
         consumption_driving := 8, consumption_idle := 1, is_active := true }] }

/-- The user's cars currently flagged active. -/
def activeCars (db : DB) (uid : String) : List Car :=
  db.cars.filter (fun c => decide (c.user_id = uid ∧ c.is_active = true))

/-- How many of the user's cars are flagged active. -/
def activeCount (db : DB) (uid : String) : Nat :=
  (activeCars db uid).length

/-- Chain order of the spec (section 3): (date, id) ascending. -/
def chainLe (a b : FuelLog) : Prop :=
  a.date < b.date ∨ (a.date = b.date ∧ a.id ≤ b.id)

instance (a b : FuelLog) : Decidable (chainLe a b) := by
  unfold chainLe; infer_instance

/-- Stated from the spec's words, for comparison with the code's codeSuffix
(claim about the suffix): the target entry plus every entry after it in chain
order for the same vehicle, in ascending chain order. -/
def spec_suffix (db : DB) (t : FuelLog) : List FuelLog :=
  List.insertionSort (fun a b => chainLe a b)
    (db.fuel_logs.filter (fun l => decide (l.car_id = t.car_id ∧ chainLe t l)))

/-- Stated from the spec's words, for comparison with the code's anchor
queries: the entry immediately preceding the target in chain order, i.e. the
(date, id)-greatest entry of the same vehicle strictly before the target. -/
def spec_anchor (db : DB) (t : FuelLog) : Option FuelLog :=
  (db.fuel_logs.filter
    (fun l => decide (l.car_id = t.car_id ∧ laterDateId l t))).foldl pickMaxDateId none

/-- Stated from the spec's words: the chronologically last entry of a
vehicle's ledger, i.e. the (date, id)-greatest entry of the vehicle. -/
def chron_last (db : DB) (cid : Nat) : Option FuelLog :=
  (db.fuel_logs.filter (fun l => decide (l.car_id = cid))).foldl pickMaxDateId none

/-- The chain invariant of the spec between consecutive recomputed entries:
starting from the running anchor (lm, lf), each entry starts where the
previous one ended. -/
def chained : ℚ → ℚ → List FuelLog → Prop
  | _, _, [] => True
  | lm, lf, l :: ls =>
    l.start_mileage = lm ∧ l.start_fuel = lf ∧
      chained l.end_mileage l.final_fuel_level ls

/-- The derived columns of an entry agree with the consumption formula of the
code (lines 205-213). -/
def derivedOk (cd ci : ℚ) (l : FuelLog) : Prop :=
  l.trip_distance = l.end_mileage - l.start_mileage ∧
  l.fuel_consumed_driving = l.trip_distance / 100 * cd ∧
  l.fuel_consumed_idle = l.idle_hours * ci ∧
  l.fuel_consumed_total = l.fuel_consumed_driving + l.fuel_consumed_idle ∧
  l.fuel_after_trip = l.start_fuel - l.fuel_consumed_total ∧
  l.final_fuel_level = l.fuel_after_trip + l.refueled

/-- The recomputed row keeps the stored input columns of the row it was
computed from: identity, date, end mileage, refueled litres and idle hours. -/
def keepsInputs (orig outp : FuelLog) : Prop :=
  outp.id = orig.id ∧ outp.date = orig.date ∧ outp.end_mileage = orig.end_mileage ∧
  outp.refueled = orig.refueled ∧ outp.idle_hours = orig.idle_hours

/-- The list of input rows the replay actually consumes: when the first flag is
set, the head is the target with the request body substituted in. -/
def effInputs (u : LogUpdate) : Bool → List FuelLog → List FuelLog
  | true, l :: rest => substFirst u l :: rest
  | true, [] => []
  | false, logs => logs

/-! Concrete database states used to evaluate the handler. -/

/-- A database with no rows at all. -/
def emptyDB : DB := ⟨[], []⟩

/-- First entry of a consistent two-entry chain: 0 to 100 km on day 1,
starting with 50 l, burning 8 l, ending at 42 l. -/
def log1 : FuelLog :=
  { id := 1, car_id := 1, date := 1, start_mileage := 0, end_mileage := 100,
    trip_distance := 100, refueled := 0, idle_hours := 0,
    fuel_consumed_driving := 8, fuel_consumed_idle := 0, fuel_consumed_total := 8,
    fuel_after_trip := 42, final_fuel_level := 42, start_fuel := 50 }

/-- Second entry of the chain: 100 to 150 km on day 2, 42 l down to 38 l. -/
def log2 : FuelLog :=
  { id := 2, car_id := 1, date := 2, start_mileage := 100, end_mileage := 150,
    trip_distance := 50, refueled := 0, idle_hours := 0,
    fuel_consumed_driving := 4, fuel_consumed_idle := 0, fuel_consumed_total := 4,
    fuel_after_trip := 38, final_fuel_level := 38, start_fuel := 42 }

/-- The owning car, with the terminal state of log2 and the default rates. -/
def car1 : Car :=
  { id := 1, user_id := "u", name := "car", plate := none,
    current_mileage := 150, current_fuel := 38,
    consumption_driving := 8, consumption_idle := 1, is_active := true }

/-- A consistent two-entry ledger whose dates agree with the id order. -/
def db1 : DB := ⟨[car1], [log1, log2]⟩

/-- The identity edit of log2: the stored end_mileage, refueled, idle_hours
and date sent back unchanged. -/
def u1 : LogUpdate := ⟨"u", 150, 0, 0, 2⟩

/-- What update_log_entry db1 2 u1 makes of log2: anchored at (42, 42) by
line 147, so trip_distance 108 and final fuel 834/25 = 33.36. -/
def log2after : FuelLog :=
  { id := 2, car_id := 1, date := 2, start_mileage := 42, end_mileage := 150,
    trip_distance := 108, refueled := 0, idle_hours := 0,
    fuel_consumed_driving := 216/25, fuel_consumed_idle := 0,
    fuel_consumed_total := 216/25, fuel_after_trip := 834/25,
    final_fuel_level := 834/25, start_fuel := 42 }

/-- car1 after that edit: terminal state of the recomputed log2. -/
def car1after : Car :=
  { id := 1, user_id := "u", name := "car", plate := none,
    current_mileage := 150, current_fuel := 834/25,
    consumption_driving := 8, consumption_idle := 1, is_active := true }

/-- The committed database of update_log_entry db1 2 u1. -/
def db1after : DB := ⟨[car1after], [log1, log2after]⟩

/-- log1 with its date moved after log2's: day 20. -/
def log1d : FuelLog :=
  { id := 1, car_id := 1, date := 20, start_mileage := 0, end_mileage := 100,
    trip_distance := 100, refueled := 0, idle_hours := 0,
    fuel_consumed_driving := 8, fuel_consumed_idle := 0, fuel_consumed_total := 8,
    fuel_after_trip := 42, final_fuel_level := 42, start_fuel := 50 }

/-- log2 dated before log1d: day 10.  In (date, id) chain order log2d comes
first and log1d second, the reverse of the id order. -/
def log2d : FuelLog :=
  { id := 2, car_id := 1, date := 10, start_mileage := 100, end_mileage := 150,
    trip_distance := 50, refueled := 0, idle_hours := 0,
    fuel_consumed_driving := 4, fuel_consumed_idle := 0, fuel_consumed_total := 4,
    fuel_after_trip := 38, final_fuel_level := 38, start_fuel := 42 }

/-- A ledger whose id order disagrees with its (date, id) order. -/
def db2 : DB := ⟨[car1], [log1d, log2d]⟩

/-- The identity edit of log2d. -/
def u2 : LogUpdate := ⟨"u", 150, 0, 0, 10⟩

/-- What update_log_entry db2 2 u2 makes of log2d. -/
def log2dafter : FuelLog :=
  { id := 2, car_id := 1, date := 10, start_mileage := 42, end_mileage := 150,
    trip_distance := 108, refueled := 0, idle_hours := 0,
    fuel_consumed_driving := 216/25, fuel_consumed_idle := 0,
    fuel_consumed_total := 216/25, fuel_after_trip := 834/25,
    final_fuel_level := 834/25, start_fuel := 42 }

/-- The committed database of update_log_entry db2 2 u2. -/
def db2after : DB := ⟨[car1after], [log1d, log2dafter]⟩

/-- A one-entry ledger holding little fuel: 10 l at the start, 2 l left. -/
def log3 : FuelLog :=
  { id := 1, car_id := 1, date := 5, start_mileage := 0, end_mileage := 100,
    trip_distance := 100, refueled := 0, idle_hours := 0,
    fuel_consumed_driving := 8, fuel_consumed_idle := 0, fuel_consumed_total := 8,
    fuel_after_trip := 2, final_fuel_level := 2, start_fuel := 10 }

/-- The car owning log3. -/
def car3 : Car :=
  { id := 1, user_id := "u", name := "car", plate := none,
    current_mileage := 100, current_fuel := 2,
    consumption_driving := 8, consumption_idle := 1, is_active := true }

/-- One-entry database for the negative-fuel edit. -/
def db3 : DB := ⟨[car3], [log3]⟩

/-- An edit of log3 stretching the trip to 2000 km: it needs 160 l of the
10 l available, so the recomputed final fuel level is -150. -/
def u3 : LogUpdate := ⟨"u", 2000, 0, 0, 5⟩

/-- What update_log_entry db3 1 u3 makes of log3: final_fuel_level -150,
accepted and persisted. -/
def log3after : FuelLog :=
  { id := 1, car_id := 1, date := 5, start_mileage := 0, end_mileage := 2000,
    trip_distance := 2000, refueled := 0, idle_hours := 0,
    fuel_consumed_driving := 160, fuel_consumed_idle := 0, fuel_consumed_total := 160,
    fuel_after_trip := -150, final_fuel_level := -150, start_fuel := 10 }

/-- car3 after that edit: negative current fuel. -/
def car3after : Car :=
  { id := 1, user_id := "u", name := "car", plate := none,
    current_mileage := 2000, current_fuel := -150,
    consumption_driving := 8, consumption_idle := 1, is_active := true }

/-- The committed database of update_log_entry db3 1 u3. -/
def db3after : DB := ⟨[car3after], [log3after]⟩

/-- A car whose is_active flag is off. -/
def carOff : Car :=
  { id := 1, user_id := "u", name := "car", plate := none,
    current_mileage := 0, current_fuel := 0,
    consumption_driving := 8, consumption_idle := 1, is_active := false }

/-- A database where the user's only car is inactive. -/
def dbOff : DB := ⟨[carOff], []⟩

/-! Evaluation of the handler on the concrete databases. -/

theorem resolve_db1 : resolveTarget db1 2 "u" = some (log2, car1) := by decide

theorem anchor_db1 : computeAnchor db1 log2 2 = (42, 42) := by decide

theorem suffix_db1 : codeSuffix db1 1 2 = [log2] := by decide

theorem prev_db1 : prevByIdQuery db1 1 2 = some log1 := by decide

theorem replay_db1 :
    replay 8 1 u1 true 42 42 [log2] = .ok ([log2after], 150, 834/25) := by
  norm_num [replay, computeDerived, substFirst, u1, log2, log2after]

theorem body_db1 : update_log_entry_body db1 2 u1 = .ok db1after := by
  have h1 : u1.user_id = "u" := rfl
  have h2 : log2.car_id = 1 := rfl
  have h3 : car1.consumption_driving = 8 := rfl
  have h4 : car1.consumption_idle = 1 := rfl
  simp only [update_log_entry_body, h1, h2, h3, h4, resolve_db1, anchor_db1,
    suffix_db1, replay_db1]
  rfl

theorem eval_db1 :
    update_log_entry db1 2 u1 = (db1after, .ok "Logs updated successfully") := by
  simp only [update_log_entry, body_db1]

theorem resolve_db2 : resolveTarget db2 2 "u" = some (log2d, car1) := by decide

theorem anchor_db2 : computeAnchor db2 log2d 2 = (42, 42) := by decide

theorem suffix_db2 : codeSuffix db2 1 2 = [log2d] := by decide

theorem replay_db2 :
    replay 8 1 u2 true 42 42 [log2d] = .ok ([log2dafter], 150, 834/25) := by
  norm_num [replay, computeDerived, substFirst, u2, log2d, log2dafter]

theorem body_db2 : update_log_entry_body db2 2 u2 = .ok db2after := by
  have h1 : u2.user_id = "u" := rfl
  have h2 : log2d.car_id = 1 := rfl
  have h3 : car1.consumption_driving = 8 := rfl
  have h4 : car1.consumption_idle = 1 := rfl
  simp only [update_log_entry_body, h1, h2, h3, h4, resolve_db2, anchor_db2,
    suffix_db2, replay_db2]
  rfl

theorem eval_db2 :
    update_log_entry db2 2 u2 = (db2after, .ok "Logs updated successfully") := by
  simp only [update_log_entry, body_db2]

theorem resolve_db3 : resolveTarget db3 1 "u" = some (log3, car3) := by decide

theorem anchor_db3 : computeAnchor db3 log3 1 = (0, 10) := by decide

theorem suffix_db3 : codeSuffix db3 1 1 = [log3] := by decide

theorem replay_db3 :
    replay 8 1 u3 true 0 10 [log3] = .ok ([log3after], 2000, -150) := by
  norm_num [replay, computeDerived, substFirst, u3, log3, log3after]

theorem body_db3 : update_log_entry_body db3 1 u3 = .ok db3after := by
  have h1 : u3.user_id = "u" := rfl
  have h2 : log3.car_id = 1 := rfl
  have h3 : car3.consumption_driving = 8 := rfl
  have h4 : car3.consumption_idle = 1 := rfl
  simp only [update_log_entry_body, h1, h2, h3, h4, resolve_db3, anchor_db3,
    suffix_db3, replay_db3]
  rfl

theorem eval_db3 :
    update_log_entry db3 1 u3 = (db3after, .ok "Logs updated successfully") := by
  simp only [update_log_entry, body_db3]

theorem body_empty :
    update_log_entry_body emptyDB 1 u1 = .error ⟨404, "Log entry not found"⟩ := rfl

theorem eval_empty :
    update_log_entry emptyDB 1 u1
      = (emptyDB, .error ⟨500, "Database error: 404: Log entry not found"⟩) := rfl

end FuelTrack

namespace FuelTrack

/-! Claim theorems: concrete evaluations, counterexamples and bug exhibits. -/

/-- C1: after the successful identity edit of entry 2 in the consistent
two-entry ledger db1, the handler reports success, yet the recomputed entry 2
has start_mileage 42 — the predecessor's final_fuel_level, assigned by
src/main.py line 147 — while the predecessor's end_mileage is 100, so the
spec's chain invariant start_mileage_i = end_mileage_(i-1) is broken by the
code at this input. -/
theorem C1_code_evaluation :
    (update_log_entry db1 2 u1).2 = .ok "Logs updated successfully" ∧
    (findLogById (update_log_entry db1 2 u1).1.fuel_logs 2).map FuelLog.start_mileage
      = some 42 ∧
    (findLogById (update_log_entry db1 2 u1).1.fuel_logs 1).map FuelLog.end_mileage
      = some 100 ∧
    (42 : ℚ) ≠ 100 := by
  rw [eval_db1]
  refine ⟨rfl, by decide, by decide, by norm_num⟩

/-- C2 counterexample: stretching the single trip of db3 to 2000 km makes the
replay compute final_fuel_level -150, yet update_log_entry succeeds and
persists the negative level to the entry (and the handler checked nothing
about it): the claim that a negative final_fuel_level aborts the edit is
false at this input. -/
theorem C2_counterexample :
    (update_log_entry db3 1 u3).2 = .ok "Logs updated successfully" ∧
    (findLogById (update_log_entry db3 1 u3).1.fuel_logs 1).map FuelLog.final_fuel_level
      = some (-150) ∧
    ((-150 : ℚ) < 0) := by
  rw [eval_db3]
  refine ⟨rfl, by decide, by norm_num⟩

/-- C4 counterexample: in db2 the (date, id) chain order is log2d before
log1d, the reverse of the id order.  Editing log2d, the code's suffix is
[log2d] alone — log1d, which follows the target in chain order, is not
recomputed — and the code anchors on log1d although the target has no
chain-order predecessor, so the claim that suffix and anchor follow (date, id)
chain order is false at this input. -/
theorem C4_counterexample :
    codeSuffix db2 1 2 = [log2d] ∧
    spec_suffix db2 log2d = [log2d, log1d] ∧
    ([log2d] : List FuelLog) ≠ [log2d, log1d] ∧
    prevByIdQuery db2 1 2 = some log1d ∧
    spec_anchor db2 log2d = none := by
  decide

/-- C6 counterexample: after the successful edit of log2d in db2 the vehicle
row holds (150, 834/25) — the terminal values of the suffix's last row in id
order — while the chronologically last entry of the ledger is log1d with
end_mileage 100 and final_fuel_level 42, so the claim that the vehicle mirrors
the chronologically last entry is false at this input. -/
theorem C6_counterexample :
    (update_log_entry db2 2 u2).2 = .ok "Logs updated successfully" ∧
    ((update_log_entry db2 2 u2).1.cars.map Car.current_mileage) = [150] ∧
    (chron_last (update_log_entry db2 2 u2).1 1).map FuelLog.end_mileage
      = some 100 ∧
    (150 : ℚ) ≠ 100 := by
  rw [eval_db2]
  refine ⟨rfl, by decide, by decide, by norm_num⟩

/-- C8: on a database with no matching log entry the handler's own
HTTPException 404 "Log entry not found" is swallowed by the except-branch and
the caller receives status 500 with detail "Database error: 404: Log entry
not found" — never the 404 itself. -/
theorem C8_code_evaluation :
    (update_log_entry emptyDB 1 u1).2
      = .error ⟨500, "Database error: 404: Log entry not found"⟩ ∧
    ∀ d, (update_log_entry emptyDB 1 u1).2 ≠ .error ⟨404, d⟩ := by
  rw [eval_empty]
  exact ⟨rfl, fun d h => by simp at h⟩

/-- C9 counterexample: two cars created for the same user through the
DDL-defaulted insert are both active, so the user has two active vehicles and
the single-active-vehicle invariant is false at this state. -/
theorem C9_counterexample :
    activeCount (create_car (create_car emptyDB "u" "a" none 1) "u" "b" none 2) "u" = 2 ∧
    (2 : Nat) ≠ 1 := by
  decide

end FuelTrack

namespace FuelTrack

/-! The replay loop: structural lemmas. -/

/-- Each recomputed row carries the anchor it was given, derived columns
computed by the formula, and the input columns of the row it came from. -/
theorem computeDerived_fields (cd ci lm lf : ℚ) (l : FuelLog) :
    derivedOk cd ci (computeDerived cd ci lm lf l) ∧
    (computeDerived cd ci lm lf l).start_mileage = lm ∧
    (computeDerived cd ci lm lf l).start_fuel = lf ∧
    keepsInputs l (computeDerived cd ci lm lf l) := by
  simp [computeDerived, derivedOk, keepsInputs]

/-- A successful replay of a nonempty suffix decomposes into its first
recomputed row — which passed the negative-distance check — and a successful
replay of the remaining rows from that row's terminal state. -/
theorem replay_cons_ok (cd ci : ℚ) (u : LogUpdate) (first : Bool) (lm lf : ℚ)
    (l : FuelLog) (rest ls : List FuelLog) (m f : ℚ)
    (h : replay cd ci u first lm lf (l :: rest) = .ok (ls, m, f)) :
    ∃ ls',
      ls = computeDerived cd ci lm lf (if first then substFirst u l else l) :: ls' ∧
      ¬ (computeDerived cd ci lm lf (if first then substFirst u l else l)).trip_distance < 0 ∧
      replay cd ci u false
        (computeDerived cd ci lm lf (if first then substFirst u l else l)).end_mileage
        (computeDerived cd ci lm lf (if first then substFirst u l else l)).final_fuel_level
        rest = .ok (ls', m, f) := by
  simp only [replay] at h
  by_cases hneg :
      (computeDerived cd ci lm lf (if first then substFirst u l else l)).trip_distance < 0
  · rw [if_pos hneg] at h
    exact absurd h (by simp)
  · rw [if_neg hneg] at h
    rcases hr : replay cd ci u false
        (computeDerived cd ci lm lf (if first then substFirst u l else l)).end_mileage
        (computeDerived cd ci lm lf (if first then substFirst u l else l)).final_fuel_level
        rest with e | out
    · rw [hr] at h
      exact absurd h (by simp)
    · obtain ⟨ls', m', f'⟩ := out
      rw [hr] at h
      simp only [Except.ok.injEq, Prod.mk.injEq] at h
      obtain ⟨h1, h2, h3⟩ := h
      subst h2; subst h3
      exact ⟨ls', h1.symm, hneg, rfl⟩

/-- The substitution switch of the replay, off: the row is kept as stored. -/
theorem ite_first_false (u : LogUpdate) (l : FuelLog) :
    (if (false : Bool) then substFirst u l else l) = l := rfl

/-- The substitution switch of the replay, on: the request body is written
into the row first. -/
theorem ite_first_true (u : LogUpdate) (l : FuelLog) :
    (if (true : Bool) then substFirst u l else l) = substFirst u l := rfl

/-- A successful replay with the substitution switch off: the output is
chained from the given anchor, every output row satisfies the consumption
formula and the negative-distance check, each output row keeps its input
row's stored input columns, and the returned running anchor is the last
output row's terminal state (or the given anchor when there was nothing to
replay). -/
theorem replay_false_spec (cd ci : ℚ) (u : LogUpdate) :
    ∀ (logs : List FuelLog) (lm lf : ℚ) (ls : List FuelLog) (m f : ℚ),
      replay cd ci u false lm lf logs = .ok (ls, m, f) →
      chained lm lf ls ∧ (∀ l ∈ ls, derivedOk cd ci l) ∧
      (∀ l ∈ ls, 0 ≤ l.trip_distance) ∧
      List.Forall₂ keepsInputs logs ls ∧
      ((ls = [] ∧ m = lm ∧ f = lf) ∨
        (∃ z, ls.getLast? = some z ∧ m = z.end_mileage ∧ f = z.final_fuel_level)) := by
  intro logs
  induction logs with
  | nil =>
    intro lm lf ls m f h
    simp only [replay, Except.ok.injEq, Prod.mk.injEq] at h
    obtain ⟨rfl, rfl, rfl⟩ := h
    exact ⟨trivial, by simp, by simp, List.Forall₂.nil, Or.inl ⟨rfl, rfl, rfl⟩⟩
  | cons l rest ih =>
    intro lm lf ls m f h
    obtain ⟨ls', rfl, hneg, hr⟩ := replay_cons_ok cd ci u false lm lf l rest ls m f h
    rw [ite_first_false] at hneg hr ⊢
    obtain ⟨hder, hsm, hsf, hkeep⟩ := computeDerived_fields cd ci lm lf l
    obtain ⟨ih1, ih2, ih3, ih4, ih5⟩ := ih _ _ ls' m f hr
    refine ⟨⟨hsm, hsf, ih1⟩, ?_, ?_, List.Forall₂.cons hkeep ih4, ?_⟩
    · intro x hx
      rcases List.mem_cons.mp hx with rfl | hx
      · exact hder
      · exact ih2 x hx
    · intro x hx
      rcases List.mem_cons.mp hx with rfl | hx
      · exact not_lt.mp hneg
      · exact ih3 x hx
    · rcases ih5 with ⟨rfl, rfl, rfl⟩ | ⟨z, hz, rfl, rfl⟩
      · exact Or.inr ⟨_, by simp, rfl, rfl⟩
      · refine Or.inr ⟨z, ?_, rfl, rfl⟩
        cases ls' with
        | nil => simp at hz
        | cons a as => rw [List.getLast?_cons_cons]; exact hz

/-- Structure of any successful replay, substitution switch included: the
output is chained from the given anchor, satisfies the consumption formula
and the negative-distance check row by row, row i keeps the input columns of
input row i — the first input row being the target with the request body
substituted when the switch is on — and the returned running anchor is the
last output row's terminal state. -/
theorem replay_ok_spec (cd ci : ℚ) (u : LogUpdate) (logs : List FuelLog) (first : Bool)
    (lm lf : ℚ) (ls : List FuelLog) (m f : ℚ)
    (h : replay cd ci u first lm lf logs = .ok (ls, m, f)) :
    chained lm lf ls ∧ (∀ l ∈ ls, derivedOk cd ci l) ∧
    (∀ l ∈ ls, 0 ≤ l.trip_distance) ∧
    List.Forall₂ keepsInputs (effInputs u first logs) ls ∧
    ((ls = [] ∧ m = lm ∧ f = lf) ∨
      (∃ z, ls.getLast? = some z ∧ m = z.end_mileage ∧ f = z.final_fuel_level)) := by
  cases first with
  | false =>
    have hs := replay_false_spec cd ci u logs lm lf ls m f h
    simpa [effInputs] using hs
  | true =>
    cases logs with
    | nil =>
      simp only [replay, Except.ok.injEq, Prod.mk.injEq] at h
      obtain ⟨rfl, rfl, rfl⟩ := h
      exact ⟨trivial, by simp, by simp, by simp [effInputs], Or.inl ⟨rfl, rfl, rfl⟩⟩
    | cons l rest =>
      obtain ⟨ls', rfl, hneg, hr⟩ := replay_cons_ok cd ci u true lm lf l rest ls m f h
      rw [ite_first_true] at hneg hr ⊢
      obtain ⟨hder, hsm, hsf, hkeep⟩ := computeDerived_fields cd ci lm lf (substFirst u l)
      obtain ⟨ih1, ih2, ih3, ih4, ih5⟩ := replay_false_spec cd ci u rest _ _ ls' m f hr
      refine ⟨⟨hsm, hsf, ih1⟩, ?_, ?_, ?_, ?_⟩
      · intro x hx
        rcases List.mem_cons.mp hx with rfl | hx
        · exact hder
        · exact ih2 x hx
      · intro x hx
        rcases List.mem_cons.mp hx with rfl | hx
        · exact not_lt.mp hneg
        · exact ih3 x hx
      · simpa [effInputs] using List.Forall₂.cons hkeep ih4
      · rcases ih5 with ⟨rfl, rfl, rfl⟩ | ⟨z, hz, rfl, rfl⟩
        · exact Or.inr ⟨_, by simp, rfl, rfl⟩
        · refine Or.inr ⟨z, ?_, rfl, rfl⟩
          cases ls' with
          | nil => simp at hz
          | cons a as => rw [List.getLast?_cons_cons]; exact hz

end FuelTrack

namespace FuelTrack

/-- C7: a successful editTrip replay proceeds in order from the anchor: the
first suffix element is the stored target with date, end_mileage, refueled
and idle_hours replaced by the edited values (substFirst, via effInputs with
the switch on) before computing; every later element keeps its stored input
columns; each recomputed row takes start_mileage/start_fuel from the running
anchor (chained) and has all derived columns recomputed by the consumption
formula (derivedOk). -/
theorem C7_replay_structure (cd ci : ℚ) (u : LogUpdate) (lm lf : ℚ)
    (logs ls : List FuelLog) (m f : ℚ)
    (h : replay cd ci u true lm lf logs = .ok (ls, m, f)) :
    chained lm lf ls ∧ (∀ l ∈ ls, derivedOk cd ci l) ∧
    List.Forall₂ keepsInputs (effInputs u true logs) ls := by
  obtain ⟨h1, h2, -, h4, -⟩ := replay_ok_spec cd ci u logs true lm lf ls m f h
  exact ⟨h1, h2, h4⟩

/-- C7 witness: the replay of db1's suffix from the anchor (42, 42). -/
theorem C7_replay_structure_witness :
    chained 42 42 [log2after] ∧ (∀ l ∈ [log2after], derivedOk 8 1 l) ∧
    List.Forall₂ keepsInputs (effInputs u1 true [log2]) [log2after] :=
  C7_replay_structure 8 1 u1 42 42 [log2] [log2after] 150 (834/25) replay_db1

/-- C5: every entry recomputed by a successful replay satisfies the
consumption formula: fuel_consumed_driving = trip_distance / 100 *
rate_driving, fuel_consumed_idle = idle_hours * rate_idle, and
fuel_consumed_total their sum, given trip_distance >= 0 and idle_hours >= 0. -/
theorem C5_consumption_formula (cd ci : ℚ) (u : LogUpdate) (first : Bool)
    (lm lf : ℚ) (logs ls : List FuelLog) (m f : ℚ) (l : FuelLog)
    (h : replay cd ci u first lm lf logs = .ok (ls, m, f)) (hl : l ∈ ls)
    (_hd : 0 ≤ l.trip_distance) (_hi : 0 ≤ l.idle_hours) :
    l.fuel_consumed_driving = l.trip_distance / 100 * cd ∧
    l.fuel_consumed_idle = l.idle_hours * ci ∧
    l.fuel_consumed_total = l.fuel_consumed_driving + l.fuel_consumed_idle := by
  obtain ⟨-, hder, -, -, -⟩ := replay_ok_spec cd ci u logs first lm lf ls m f h
  obtain ⟨-, h1, h2, h3, -, -⟩ := hder l hl
  exact ⟨h1, h2, h3⟩

/-- C5 witness: the recomputed entry of the db1 edit. -/
theorem C5_consumption_formula_witness :
    log2after.fuel_consumed_driving = log2after.trip_distance / 100 * 8 ∧
    log2after.fuel_consumed_idle = log2after.idle_hours * 1 ∧
    log2after.fuel_consumed_total
      = log2after.fuel_consumed_driving + log2after.fuel_consumed_idle :=
  C5_consumption_formula 8 1 u1 true 42 42 [log2] [log2after] 150 (834/25) log2after
    replay_db1 (List.mem_singleton.mpr rfl) (by decide) (by decide)

/-- C2 amended: the replay validates trip_distance >= 0 at every step — any
entry a successful replay has recomputed passed the negative-distance check —
but there is no final_fuel_level check (C2_counterexample shows a negative
level accepted and persisted). -/
theorem C2_amended_validation (cd ci : ℚ) (u : LogUpdate) (first : Bool)
    (lm lf : ℚ) (logs ls : List FuelLog) (m f : ℚ)
    (h : replay cd ci u first lm lf logs = .ok (ls, m, f)) :
    ∀ l ∈ ls, 0 ≤ l.trip_distance := by
  obtain ⟨-, -, h3, -, -⟩ := replay_ok_spec cd ci u logs first lm lf ls m f h
  exact h3

/-- C2 amended witness: the recomputed entry of the db1 edit has nonnegative
trip distance. -/
theorem C2_amended_validation_witness : 0 ≤ log2after.trip_distance :=
  C2_amended_validation 8 1 u1 true 42 42 [log2] [log2after] 150 (834/25) replay_db1
    log2after (List.mem_singleton.mpr rfl)

/-- C3: editTrip is atomic — whenever the handler returns an error (its
except-branch rolled the transaction back), the database it leaves behind is
exactly the pre-call database; the success case commits the recomputed suffix
rows and the vehicle row together as the single returned state. -/
theorem C3_atomic_rollback (db : DB) (lid : Nat) (u : LogUpdate) (e : HttpErr)
    (h : (update_log_entry db lid u).2 = .error e) :
    (update_log_entry db lid u).1 = db := by
  rcases hb : update_log_entry_body db lid u with e2 | db2
  · simp [update_log_entry, hb]
  · rw [update_log_entry] at h
    rw [hb] at h
    simp at h

/-- C3 witness: the failed edit on the empty database leaves it unchanged. -/
theorem C3_atomic_rollback_witness : (update_log_entry emptyDB 1 u1).1 = emptyDB :=
  C3_atomic_rollback emptyDB 1 u1 ⟨500, "Database error: 404: Log entry not found"⟩
    (by rw [eval_empty])

/-- C10: every error the try-block body raises — the 404 of the missing
entry and the 400 of the negative-distance validation included — is caught by
the handler's except-branch and reaches the caller as status 500 with detail
"Database error: " prefixed to the str() of the original exception, never
with its original status code. -/
theorem C10_error_wrapping (db : DB) (lid : Nat) (u : LogUpdate) (e : HttpErr)
    (h : update_log_entry_body db lid u = .error e) :
    (update_log_entry db lid u).2
      = .error ⟨500, "Database error: " ++ HttpErr.render e⟩ := by
  simp [update_log_entry, h]

/-- C10 witness: the 404 raised for a missing entry surfaces as the wrapped
500. -/
theorem C10_error_wrapping_witness :
    (update_log_entry emptyDB 1 u1).2
      = .error ⟨500, "Database error: " ++ HttpErr.render ⟨404, "Log entry not found"⟩⟩ :=
  C10_error_wrapping emptyDB 1 u1 ⟨404, "Log entry not found"⟩ body_empty

end FuelTrack

namespace FuelTrack

/-! The predecessor query: extremal characterisation of the fold. -/

/-- The id-maximum accumulator never forgets a row. -/
theorem pickMaxId_ne_none (acc : Option FuelLog) (x : FuelLog) :
    pickMaxId acc x ≠ none := by
  cases acc with
  | none => simp [pickMaxId]
  | some y =>
    simp only [pickMaxId]
    split <;> simp

/-- What the id-maximum accumulator keeps: the new row or the old content,
and its id bounds both. -/
theorem pickMaxId_spec (acc : Option FuelLog) (x z : FuelLog)
    (h : pickMaxId acc x = some z) :
    (z = x ∨ acc = some z) ∧ x.id ≤ z.id ∧ ∀ y, acc = some y → y.id ≤ z.id := by
  cases acc with
  | none =>
    simp only [pickMaxId, Option.some.injEq] at h
    subst h
    exact ⟨Or.inl rfl, le_refl _, by simp⟩
  | some y =>
    simp only [pickMaxId] at h
    split at h
    · simp only [Option.some.injEq] at h
      refine ⟨Or.inl h.symm, le_of_eq (by rw [h]), ?_⟩
      intro w hw
      obtain hyw : y = w := by simpa using hw
      rw [← hyw, ← h]
      exact le_of_lt (by assumption)
    · simp only [Option.some.injEq] at h
      refine ⟨Or.inr (by rw [h]), ?_, ?_⟩
      · rw [← h]
        exact le_of_not_lt (by assumption)
      · intro w hw
        obtain hyw : y = w := by simpa using hw
        rw [← hyw, ← h]

/-- Folding the id-maximum accumulator yields a row of the list (or the
start), whose id bounds every listed row and the start. -/
theorem foldl_pickMaxId_spec (xs : List FuelLog) :
    ∀ (acc : Option FuelLog) (p : FuelLog),
      xs.foldl pickMaxId acc = some p →
      (acc = some p ∨ p ∈ xs) ∧ (∀ q ∈ xs, q.id ≤ p.id) ∧
        ∀ y, acc = some y → y.id ≤ p.id := by
  induction xs with
  | nil =>
    intro acc p h
    simp only [List.foldl_nil] at h
    refine ⟨Or.inl h, by simp, ?_⟩
    intro y hy
    rw [h] at hy
    obtain rfl : p = y := by simpa using hy
    exact le_refl _
  | cons x xs ih =>
    intro acc p h
    rw [List.foldl_cons] at h
    rcases hstep : pickMaxId acc x with - | w
    · exact absurd hstep (pickMaxId_ne_none acc x)
    · obtain ⟨hmem, hmax, hacc⟩ := ih (pickMaxId acc x) p h
      obtain ⟨hw1, hw2, hw3⟩ := pickMaxId_spec acc x w hstep
      have hwp : w.id ≤ p.id := by
        rcases hmem with hm | hm
        · obtain rfl : w = p := by rw [hstep] at hm; simpa using hm
          exact le_refl _
        · exact hacc w hstep
      refine ⟨?_, ?_, ?_⟩
      · rcases hmem with hm | hm
        · rw [hstep] at hm
          obtain rfl : w = p := by simpa using hm
          rcases hw1 with rfl | hy
          · exact Or.inr (List.mem_cons_self _ _)
          · exact Or.inl hy
        · exact Or.inr (List.mem_cons_of_mem _ hm)
      · intro q hq
        rcases List.mem_cons.mp hq with rfl | hq
        · exact le_trans hw2 hwp
        · exact hmax q hq
      · intro y hy
        exact le_trans (hw3 y hy) hwp

/-- A fold of the id-maximum accumulator returning nothing started from
nothing and saw nothing. -/
theorem foldl_pickMaxId_none (xs : List FuelLog) :
    ∀ acc, xs.foldl pickMaxId acc = none → acc = none ∧ xs = [] := by
  induction xs with
  | nil => exact fun acc h => ⟨h, rfl⟩
  | cons x xs ih =>
    intro acc h
    rw [List.foldl_cons] at h
    obtain ⟨h1, -⟩ := ih (pickMaxId acc x) h
    exact absurd h1 (pickMaxId_ne_none acc x)

end FuelTrack

namespace FuelTrack

/-- C4 amended: the suffix the handler recomputes is the target plus every
entry of the same vehicle with a larger or equal id, in ascending id order —
not (date, id) chain order (C4_counterexample) — and the primary anchor query
returns the entry with the greatest id among those of the vehicle with id
below the target's, when one exists. -/
theorem C4_amended (db : DB) (cid lid : Nat) :
    (∀ l, l ∈ codeSuffix db cid lid ↔ (l ∈ db.fuel_logs ∧ l.car_id = cid ∧ lid ≤ l.id)) ∧
    List.Sorted idLe (codeSuffix db cid lid) ∧
    (∀ p, prevByIdQuery db cid lid = some p →
      p ∈ db.fuel_logs ∧ p.car_id = cid ∧ p.id < lid ∧
      ∀ q ∈ db.fuel_logs, q.car_id = cid → q.id < lid → q.id ≤ p.id) ∧
    (prevByIdQuery db cid lid = none →
      ∀ q ∈ db.fuel_logs, q.car_id = cid → ¬ q.id < lid) := by
  refine ⟨?_, List.sorted_insertionSort idLe _, ?_, ?_⟩
  · intro l
    simp [codeSuffix, List.mem_insertionSort, List.mem_filter]
  · intro p hp
    obtain ⟨hmem, hmax, -⟩ := foldl_pickMaxId_spec _ none p hp
    rcases hmem with hm | hm
    · exact absurd hm (by simp)
    · have hf := List.mem_filter.mp hm
      have hprop : p.car_id = cid ∧ p.id < lid := by simpa using hf.2
      refine ⟨hf.1, hprop.1, hprop.2, ?_⟩
      intro q hq hqc hql
      exact hmax q (List.mem_filter.mpr ⟨hq, by simp [hqc, hql]⟩)
  · intro hnone q hq hqc hql
    obtain ⟨-, hnil⟩ := foldl_pickMaxId_none _ none hnone
    have hin : q ∈ db.fuel_logs.filter (fun l => decide (l.car_id = cid ∧ l.id < lid)) :=
      List.mem_filter.mpr ⟨hq, by simp [hqc, hql]⟩
    rw [hnil] at hin
    simp at hin

/-- C4 amended witness: membership characterisation at db1's suffix and the
primary anchor of the db1 edit. -/
theorem C4_amended_witness :
    (log2 ∈ codeSuffix db1 1 2 ↔ (log2 ∈ db1.fuel_logs ∧ log2.car_id = 1 ∧ 2 ≤ log2.id)) ∧
    (log1 ∈ db1.fuel_logs ∧ log1.car_id = 1 ∧ log1.id < 2 ∧
      ∀ q ∈ db1.fuel_logs, q.car_id = 1 → q.id < 2 → q.id ≤ log1.id) :=
  ⟨(C4_amended db1 1 2).1 log2, (C4_amended db1 1 2).2.2.1 log1 prev_db1⟩

/-! Shape of a committed edit. -/

/-- A found row of the primary-key scan is a listed row with the asked id. -/
theorem findLogById_some (logs : List FuelLog) (i : Nat) (l : FuelLog) :
    findLogById logs i = some l → l ∈ logs ∧ l.id = i := by
  induction logs with
  | nil => intro h; simp [findLogById] at h
  | cons x xs ih =>
    intro h
    rw [findLogById] at h
    split at h
    · obtain rfl : x = l := by simpa using h
      exact ⟨List.mem_cons_self _ _, by assumption⟩
    · obtain ⟨hm, hi⟩ := ih h
      exact ⟨List.mem_cons_of_mem _ hm, hi⟩

/-- The target resolved by the join is a ledger row carrying the requested
id. -/
theorem resolveTarget_some (db : DB) (lid : Nat) (uid : String) (t : FuelLog) (car : Car)
    (h : resolveTarget db lid uid = some (t, car)) :
    t ∈ db.fuel_logs ∧ t.id = lid := by
  rcases hf : findLogById db.fuel_logs lid with - | l
  · simp [resolveTarget, hf] at h
  · rcases hc : findCar db.cars l.car_id uid with - | c
    · simp [resolveTarget, hf, hc] at h
    · simp only [resolveTarget, hf, hc, Option.some.injEq, Prod.mk.injEq] at h
      obtain ⟨rfl, rfl⟩ := h
      exact findLogById_some db.fuel_logs lid _ hf

/-- Any committed edit decomposes into: a resolved target, a successful
replay of the code suffix from the code's anchor, and the two table writes. -/
theorem update_log_entry_body_ok_shape (db : DB) (lid : Nat) (u : LogUpdate) (db2 : DB)
    (h : update_log_entry_body db lid u = .ok db2) :
    ∃ t car ls m f,
      resolveTarget db lid u.user_id = some (t, car) ∧
      replay car.consumption_driving car.consumption_idle u true
        (computeAnchor db t lid).1 (computeAnchor db t lid).2
        (codeSuffix db t.car_id lid) = .ok (ls, m, f) ∧
      db2 = ⟨applyCarUpdate db.cars t.car_id m f, applyLogUpdates db.fuel_logs ls⟩ := by
  rcases hr : resolveTarget db lid u.user_id with - | tc
  · simp [update_log_entry_body, hr] at h
  · obtain ⟨t, car⟩ := tc
    rcases hrep : replay car.consumption_driving car.consumption_idle u true
        (computeAnchor db t lid).1 (computeAnchor db t lid).2
        (codeSuffix db t.car_id lid) with msg | out
    · simp [update_log_entry_body, hr, hrep] at h
    · obtain ⟨ls, m, f⟩ := out
      simp only [update_log_entry_body, hr, hrep, Except.ok.injEq] at h
      exact ⟨t, car, ls, m, f, rfl, hrep, h.symm⟩

/-- The substitution step does not change the number of rows to replay. -/
theorem effInputs_length (u : LogUpdate) (first : Bool) (logs : List FuelLog) :
    (effInputs u first logs).length = logs.length := by
  cases first <;> cases logs <;> simp [effInputs]

/-- C6 amended: after every committed edit, the vehicle row is written with
the terminal values (end_mileage, final_fuel_level) of the LAST ROW OF THE
REPLAYED SUFFIX — the entry with the greatest id — not of the
chronologically last entry (C6_counterexample). -/
theorem C6_amended (db : DB) (lid : Nat) (u : LogUpdate) (db2 : DB)
    (h : update_log_entry_body db lid u = .ok db2) :
    ∃ t car ls z m f,
      resolveTarget db lid u.user_id = some (t, car) ∧
      replay car.consumption_driving car.consumption_idle u true
        (computeAnchor db t lid).1 (computeAnchor db t lid).2
        (codeSuffix db t.car_id lid) = .ok (ls, m, f) ∧
      ls.getLast? = some z ∧ m = z.end_mileage ∧ f = z.final_fuel_level ∧
      db2.cars = applyCarUpdate db.cars t.car_id m f ∧
      db2.fuel_logs = applyLogUpdates db.fuel_logs ls := by
  obtain ⟨t, car, ls, m, f, hres, hrep, rfl⟩ := update_log_entry_body_ok_shape db lid u db2 h
  obtain ⟨ht, htid⟩ := resolveTarget_some db lid u.user_id t car hres
  have htmem : t ∈ codeSuffix db t.car_id lid := by
    simp [codeSuffix, List.mem_insertionSort, List.mem_filter, ht, htid]
  obtain ⟨-, -, -, h4, h5⟩ := replay_ok_spec _ _ _ _ _ _ _ _ _ _ hrep
  have hlen : (codeSuffix db t.car_id lid).length = ls.length := by
    have h6 := List.Forall₂.length_eq h4
    rwa [effInputs_length] at h6
  rcases h5 with ⟨rfl, -, -⟩ | ⟨z, hz, hm, hf⟩
  · have hnil : codeSuffix db t.car_id lid = [] := List.length_eq_zero.mp (by simpa using hlen)
    rw [hnil] at htmem
    simp at htmem
  · exact ⟨t, car, ls, z, m, f, hres, hrep, hz, hm, hf, rfl, rfl⟩

/-- C6 amended witness: the committed db1 edit, whose vehicle row takes the
recomputed log2's terminal values. -/
theorem C6_amended_witness :
    ∃ t car ls z m f,
      resolveTarget db1 2 u1.user_id = some (t, car) ∧
      replay car.consumption_driving car.consumption_idle u1 true
        (computeAnchor db1 t 2).1 (computeAnchor db1 t 2).2
        (codeSuffix db1 t.car_id 2) = .ok (ls, m, f) ∧
      ls.getLast? = some z ∧ m = z.end_mileage ∧ f = z.final_fuel_level ∧
      db1after.cars = applyCarUpdate db1.cars t.car_id m f ∧
      db1after.fuel_logs = applyLogUpdates db1.fuel_logs ls :=
  C6_amended db1 2 u1 db1after body_db1

end FuelTrack

namespace FuelTrack

/-! The single-active-vehicle flag. -/

/-- A car list with no active car has no first active car. -/
theorem firstActive_eq_none (l : List Car) (h : ∀ c ∈ l, c.is_active = false) :
    firstActive l = none := by
  induction l with
  | nil => rfl
  | cons c cs ih =>
    rw [firstActive, if_neg]
    · exact ih fun x hx => h x (List.mem_cons_of_mem _ hx)
    · simp [h c (List.mem_cons_self _ _)]

/-- The vehicle-row write of the handler changes only current_mileage and
current_fuel: id, owner and is_active of every car are untouched. -/
theorem applyCarUpdate_flags (cars : List Car) (cid : Nat) (m f : ℚ) :
    (applyCarUpdate cars cid m f).map (fun c => (c.id, c.user_id, c.is_active))
      = cars.map (fun c => (c.id, c.user_id, c.is_active)) := by
  simp only [applyCarUpdate, List.map_map]
  apply List.map_congr_left
  intro c _
  by_cases h : c.id = cid <;> simp [h]

/-- update_log_entry never changes any car's id, owner or is_active flag,
whether it commits or rolls back. -/
theorem update_log_entry_flags (db : DB) (lid : Nat) (u : LogUpdate) :
    (update_log_entry db lid u).1.cars.map (fun c => (c.id, c.user_id, c.is_active))
      = db.cars.map (fun c => (c.id, c.user_id, c.is_active)) := by
  rcases hb : update_log_entry_body db lid u with e | db2
  · simp [update_log_entry, hb]
  · obtain ⟨t, car, ls, m, f, -, -, rfl⟩ := update_log_entry_body_ok_shape db lid u db2 hb
    simp [update_log_entry, hb, applyCarUpdate_flags]

/-- With pairwise distinct car ids, exactly one listed car matches a listed
car's id together with its owner. -/
theorem length_filter_id_user (l : List Car) (c0 : Car) (uid : String)
    (hnd : (l.map Car.id).Nodup) (hm : c0 ∈ l) (hu : c0.user_id = uid) :
    (l.filter (fun x => decide (x.id = c0.id ∧ x.user_id = uid))).length = 1 := by
  induction l with
  | nil => simp at hm
  | cons c cs ih =>
    rw [List.map_cons, List.nodup_cons] at hnd
    obtain ⟨hnotin, hnd2⟩ := hnd
    rcases List.mem_cons.mp hm with rfl | hm2
    · rw [List.filter_cons, if_pos (by simp [hu])]
      simp only [List.length_cons, Nat.succ_eq_add_one, Nat.add_left_inj]
      rw [List.filter_eq_nil_iff.mpr ?_]
      · rfl
      · intro a ha
        simp only [decide_eq_true_eq, not_and]
        intro hid
        exact absurd (hid ▸ List.mem_map_of_mem Car.id ha) hnotin
    · rw [List.filter_cons, if_neg]
      · exact ih hnd2 hm2
      · simp only [decide_eq_true_eq, not_and]
        intro hid
        have : c0.id ∈ cs.map Car.id := List.mem_map_of_mem Car.id hm2
        rw [← hid] at this
        exact absurd this hnotin

end FuelTrack

namespace FuelTrack

/-- Activating the c0-matching cars of a list whose uid-owned cars are all
inactive: the active cars of the result are exactly the c0-matching ones,
switched on. -/
theorem filter_active_map (cars : List Car) (uid : String) (c0 : Car)
    (hoff : ∀ c ∈ cars, c.user_id = uid → c.is_active = false) :
    (cars.map (fun x => if x.id = c0.id ∧ x.user_id = uid
        then { x with is_active := true } else x)).filter
        (fun y => decide (y.user_id = uid ∧ y.is_active = true))
      = (cars.filter (fun x => decide (x.id = c0.id ∧ x.user_id = uid))).map
        (fun x => { x with is_active := true }) := by
  induction cars with
  | nil => rfl
  | cons x xs ih =>
    have hx : x.user_id = uid → x.is_active = false := hoff x (List.mem_cons_self _ _)
    have ih2 := ih fun c hc hcu => hoff c (List.mem_cons_of_mem _ hc) hcu
    by_cases hcond : x.id = c0.id ∧ x.user_id = uid
    · simp only [List.map_cons, List.filter_cons, if_pos hcond]
      simpa [hcond.1, hcond.2] using ih2
    · simp only [List.map_cons, List.filter_cons, if_neg hcond]
      by_cases hu : x.user_id = uid
      · have hid : ¬ x.id = c0.id := fun h2 => hcond ⟨h2, hu⟩
        simpa [hx hu, hu, hid] using ih2
      · simpa [hu] using ih2

/-- When a user's cars are all inactive and at least one exists,
get_initial_data activates exactly one of them (the repair of lines
101-104), given pairwise distinct car ids. -/
theorem get_initial_data_repair (db : DB) (uid : String)
    (hnd : (db.cars.map Car.id).Nodup)
    (hhas : ∃ c ∈ db.cars, c.user_id = uid)
    (hoff : ∀ c ∈ db.cars, c.user_id = uid → c.is_active = false) :
    activeCount (get_initial_data db uid).1 uid = 1 := by
  obtain ⟨c, hcmem, hcu⟩ := hhas
  have hmem0 : ∀ x, x ∈ List.insertionSort carIdLe
      (db.cars.filter (fun y => decide (y.user_id = uid))) ↔
      (x ∈ db.cars ∧ x.user_id = uid) := by
    intro x
    simp [List.mem_insertionSort, List.mem_filter]
  have hnone : firstActive (List.insertionSort carIdLe
      (db.cars.filter (fun y => decide (y.user_id = uid)))) = none :=
    firstActive_eq_none _ fun x hx => hoff x ((hmem0 x).mp hx).1 ((hmem0 x).mp hx).2
  rcases hc0 : List.insertionSort carIdLe
      (db.cars.filter (fun y => decide (y.user_id = uid))) with - | ⟨c0, rest⟩
  · have hcm := (hmem0 c).mpr ⟨hcmem, hcu⟩
    rw [hc0] at hcm
    simp at hcm
  · have hc0db : c0 ∈ db.cars ∧ c0.user_id = uid := by
      have hcm : c0 ∈ List.insertionSort carIdLe
          (db.cars.filter (fun y => decide (y.user_id = uid))) := by
        rw [hc0]
        exact List.mem_cons_self _ _
      exact (hmem0 c0).mp hcm
    have hnone2 : firstActive (c0 :: rest) = none := hc0 ▸ hnone
    have hgd : (get_initial_data db uid).1.cars = db.cars.map (fun x =>
        if x.id = c0.id ∧ x.user_id = uid then { x with is_active := true } else x) := by
      simp only [get_initial_data, hc0, hnone2]
    simp only [activeCount, activeCars, hgd]
    rw [filter_active_map db.cars uid c0 hoff, List.length_map]
    exact length_filter_id_user db.cars c0 uid hnd hc0db.1 hc0db.2

/-- C9 amended: the single-active-vehicle property is not an invariant of
every state (C9_counterexample: two DDL-defaulted creations leave two active
cars), but the operations in src do not break it themselves: update_log_entry
never changes any car's id, owner or is_active flag, and get_initial_data run
for a user whose cars (at least one, with pairwise distinct ids) are all
inactive leaves that user exactly one active car. -/
theorem C9_amended (db : DB) (lid : Nat) (u : LogUpdate) (uid : String)
    (hnd : (db.cars.map Car.id).Nodup)
    (hhas : ∃ c ∈ db.cars, c.user_id = uid)
    (hoff : ∀ c ∈ db.cars, c.user_id = uid → c.is_active = false) :
    ((update_log_entry db lid u).1.cars.map (fun c => (c.id, c.user_id, c.is_active))
        = db.cars.map (fun c => (c.id, c.user_id, c.is_active))) ∧
    activeCount (get_initial_data db uid).1 uid = 1 :=
  ⟨update_log_entry_flags db lid u, get_initial_data_repair db uid hnd hhas hoff⟩

/-- C9 amended witness: the one-inactive-car database. -/
theorem C9_amended_witness :
    ((update_log_entry dbOff 1 u1).1.cars.map (fun c => (c.id, c.user_id, c.is_active))
        = dbOff.cars.map (fun c => (c.id, c.user_id, c.is_active))) ∧
    activeCount (get_initial_data dbOff "u").1 "u" = 1 :=
  C9_amended dbOff 1 u1 "u" (by decide) (by decide) (by decide)

end FuelTrack
